import Mathlib

/-!
Shallow embedding of the volcano status aggregation and caching layer:
the eruption feed service (`src/lib/gvp-eruptions.ts`), the catalog
aggregation route (the API-route portion of `src/app/sitemap.ts`), and the
refresh route (`src/app/api/volcanoes/refresh/route.ts`).

Network I/O is modelled by passing each fetch's outcome as an explicit
`Except Unit payload` parameter; module-level mutable cache variables are
modelled by explicit state passing; `Date.now()` is an explicit `now : Nat`
parameter (milliseconds).  JavaScript `Map` insertion-order semantics are
modelled by association lists.  Numbers that the code only copies around
(coordinates) are modelled as `ℚ`.
-/

namespace Volcanic

/-- `VolcanoStatus` from `src/lib/types.ts`. -/
inductive VolcanoStatus where
  | normal
  | advisory
  | watch
  | warning
  | erupting
deriving DecidableEq, Repr

/-- `Volcano` from `src/lib/types.ts`.  Optional fields are `Option`;
`vei?: number` is `Option Int`. -/
structure Volcano where
  id : String
  name : String
  country : String
  region : String
  latitude : ℚ
  longitude : ℚ
  elevation : Int
  type : String
  status : VolcanoStatus
  lastEruption : Option String
  vei : Option Int
  description : Option String
  tectonicSetting : Option String
  rockTypes : Option (List String)
deriving DecidableEq, Repr

/-- `ActiveEruption` from `src/lib/gvp-eruptions.ts`. -/
structure ActiveEruption where
  volcanoId : String
  volcanoName : String
  startDate : Option String
  vei : Option Int
deriving DecidableEq, Repr

/-- `GVPEruption` (the `properties` of one eruption feature). -/
structure GVPEruption where
  VolcanoNumber : Nat
  VolcanoName : String
  ContinuingEruption : String
  StartDate : Option String
  StartDateYear : Int
  ExplosivityIndexMax : Option Int
deriving DecidableEq, Repr

/-- One feature of the eruption feed response. -/
structure GVPEruptionFeature where
  properties : GVPEruption
deriving DecidableEq, Repr

/-- The eruption snapshot: a JS `Map<string, ActiveEruption>` in insertion
order, as an association list. -/
abbrev EruptionMap := List (String × ActiveEruption)

/-- The module-level `eruptionCache` variable: `null` or
`{eruptions, timestamp}`. -/
abbrev EruptionCache := Option (EruptionMap × Nat)

/-- `ERUPTION_CACHE_DURATION = 30 * 60 * 1000`. -/
def ERUPTION_CACHE_DURATION : Nat := 30 * 60 * 1000

/-- The `ActiveEruption` value stored by the loop body of
`fetchActiveEruptions`. -/
def mkActiveEruption (props : GVPEruption) : ActiveEruption :=
  { volcanoId := toString props.VolcanoNumber
    volcanoName := props.VolcanoName
    startDate := props.StartDate
    vei := props.ExplosivityIndexMax }

/-- `Map.has` on the association-list model. -/
def hasKey (acc : EruptionMap) (k : String) : Bool :=
  acc.any (fun p => p.1 == k)

/-- The `for (const feature of data.features)` loop of
`fetchActiveEruptions`: keep records with `ContinuingEruption === "True"`,
first record per volcano id wins (`Map.set` guarded by `!has`). -/
def buildAux : EruptionMap → List GVPEruptionFeature → EruptionMap
  | acc, [] => acc
  | acc, f :: rest =>
    if f.properties.ContinuingEruption == "True" then
      let volcanoId := toString f.properties.VolcanoNumber
      if hasKey acc volcanoId then
        buildAux acc rest
      else
        buildAux (acc ++ [(volcanoId, mkActiveEruption f.properties)]) rest
    else
      buildAux acc rest

/-- The eruption map built from the parsed feed payload. -/
def buildEruptions (fs : List GVPEruptionFeature) : EruptionMap :=
  buildAux [] fs

/-- `eruptionCache && now - eruptionCache.timestamp < ERUPTION_CACHE_DURATION`. -/
def eruFresh (cache : EruptionCache) (now : Nat) : Bool :=
  match cache with
  | some (_, ts) => now - ts < ERUPTION_CACHE_DURATION
  | none => false

/-- Result of one `fetchActiveEruptions` call: the returned map, the cache
variable afterwards, and whether a network request was issued. -/
structure EruFetchResult where
  eruptions : EruptionMap
  newCache : EruptionCache
  fetched : Bool
deriving DecidableEq, Repr

/-- `fetchActiveEruptions` from `src/lib/gvp-eruptions.ts`.  `outcome` is
the network fetch: `.error ()` covers a thrown network error, a non-ok
status, or a payload whose parse throws; `.ok fs` is the parsed feature
list.  The `catch` block returns the stale cache when one exists, else an
empty map, and leaves the cache variable untouched. -/
def fetchActiveEruptions (cache : EruptionCache) (now : Nat)
    (outcome : Except Unit (List GVPEruptionFeature)) : EruFetchResult :=
  if eruFresh cache now then
    ⟨(cache.map (fun c => c.1)).getD [], cache, false⟩
  else
    match outcome with
    | .ok fs =>
      let m := buildEruptions fs
      ⟨m, some (m, now), true⟩
    | .error _ =>
      match cache with
      | some (e, _) => ⟨e, cache, true⟩
      | none => ⟨[], none, true⟩

/-- `invalidateEruptionCache`: sets `eruptionCache = null` unconditionally. -/
def invalidateEruptionCache (_cache : EruptionCache) : EruptionCache :=
  none

/-! ## Catalog aggregation (the API-route portion of `src/app/sitemap.ts`) -/

/-- `WARNING_VOLCANO_IDS`. -/
def WARNING_VOLCANO_IDS : List String :=
  ["263250", "341090", "342090", "263340"]

/-- `WATCH_VOLCANO_IDS`. -/
def WATCH_VOLCANO_IDS : List String :=
  ["352010", "212040", "357120", "282110", "311070", "264020", "263310"]

/-- `ADVISORY_VOLCANO_IDS`. -/
def ADVISORY_VOLCANO_IDS : List String :=
  ["264140", "383010", "223020", "221080", "264020", "273070", "211010",
   "311060", "241040"]

/-- `determineStatus`: the module-level `activeEruptions` map is an explicit
argument. -/
def determineStatus (activeEruptions : EruptionMap) (volcanoId : String) :
    VolcanoStatus :=
  if hasKey activeEruptions volcanoId then .erupting
  else if WARNING_VOLCANO_IDS.contains volcanoId then .warning
  else if WATCH_VOLCANO_IDS.contains volcanoId then .watch
  else if ADVISORY_VOLCANO_IDS.contains volcanoId then .advisory
  else .normal

/-- The `properties` of a catalog feature (`GVPFeature` in the source).
Every field a JS object might lack is an `Option`. -/
structure GVPProps where
  Volcano_Number : Nat
  Volcano_Name : Option String
  Country : Option String
  Region : Option String
  Subregion : Option String
  Primary_Volcano_Type : Option String
  Elevation : Option Int
  Last_Eruption_Year : Option Int
  Tectonic_Setting : Option String
  Major_Rock_Type : Option String
deriving DecidableEq, Repr

/-- The `geometry` of a catalog feature; `coordinates` is `[lon, lat]`. -/
structure GVPGeometry where
  coordinates : Option (List ℚ)
deriving DecidableEq, Repr

/-- One catalog feature; `geometry` and `properties` may be absent. -/
structure GVPFeature where
  geometry : Option GVPGeometry
  properties : Option GVPProps
deriving DecidableEq, Repr

/-- JS truthiness of an optional string: absent, `null` and `""` are falsy. -/
def strTruthy : Option String → Option String
  | some s => if s == "" then none else some s
  | none => none

/-- JS `o || d` on an optional string. -/
def jsOr (o : Option String) (d : String) : String :=
  (strTruthy o).getD d

/-- The `.filter(...)` predicate of `fetchVolcanoData`:
`f.geometry && f.geometry.coordinates && f.properties && f.properties.Volcano_Name`
(an array is truthy even when empty; a name must be present and nonempty). -/
def keepFeature (f : GVPFeature) : Bool :=
  match f.geometry, f.properties with
  | some g, some p => g.coordinates.isSome && (strTruthy p.Volcano_Name).isSome
  | _, _ => false

/-- Default property record; `parseGeoJSONFeature` is only applied to
features that pass `keepFeature`, so these defaults are never observable in
the aggregation pipeline. -/
def defaultProps : GVPProps :=
  { Volcano_Number := 0, Volcano_Name := none, Country := none,
    Region := none, Subregion := none, Primary_Volcano_Type := none,
    Elevation := none, Last_Eruption_Year := none, Tectonic_Setting := none,
    Major_Rock_Type := none }

/-- A JS template literal stringifies a missing value as `undefined`. -/
def jsTemplate (o : Option String) : String :=
  o.getD ("undefined")

/-- `parseGeoJSONFeature`: maps a (filter-retained) catalog feature to a
`Volcano`.  Field fallbacks follow JS truthiness (`||` and `?:`); note that
no `vei` field is assigned. -/
def parseGeoJSONFeature (activeEruptions : EruptionMap) (f : GVPFeature) :
    Volcano :=
  let props := f.properties.getD defaultProps
  let coords := ((f.geometry.map (fun g => g.coordinates)).getD none).getD []
  let volcanoId := toString props.Volcano_Number
  { id := volcanoId
    name := props.Volcano_Name.getD ("")
    country := jsOr props.Country ("Unknown")
    region := ((strTruthy props.Subregion).orElse
      (fun _ => strTruthy props.Region)).getD ("Unknown")
    latitude := coords.getD 1 0
    longitude := coords.getD 0 0
    elevation := props.Elevation.getD 0
    type := jsOr props.Primary_Volcano_Type ("Unknown")
    status := determineStatus activeEruptions volcanoId
    lastEruption :=
      match props.Last_Eruption_Year with
      | some y => if y == 0 then none else some (toString y)
      | none => none
    description :=
      match strTruthy props.Tectonic_Setting with
      | some _ =>
        some (jsTemplate props.Primary_Volcano_Type ++ " volcano in " ++
          jsTemplate props.Tectonic_Setting ++ " setting.")
      | none => none
    tectonicSetting := strTruthy props.Tectonic_Setting
    rockTypes :=
      match strTruthy props.Major_Rock_Type with
      | some _ => (props.Major_Rock_Type.map (fun r => [r]))
      | none => none
    vei := none }

/-- `statusPriority` from the sort step of `fetchVolcanoData`. -/
def statusPriority : VolcanoStatus → Nat
  | .erupting => 0
  | .warning => 1
  | .watch => 2
  | .advisory => 3
  | .normal => 4

/-- The order realised by the sort comparator
`(a, b) => priorityDiff !== 0 ? priorityDiff : a.name.localeCompare(b.name)`:
`a` sorts no later than `b` iff the comparator is `≤ 0`.  `lc` abstracts
`String.prototype.localeCompare` (locale-aware, environment dependent). -/
def volcanoLE (lc : String → String → Int) (a b : Volcano) : Prop :=
  statusPriority a.status < statusPriority b.status ∨
    (statusPriority a.status = statusPriority b.status ∧ lc a.name b.name ≤ 0)

instance (lc : String → String → Int) : DecidableRel (volcanoLE lc) :=
  fun a b =>
    show Decidable (statusPriority a.status < statusPriority b.status ∨
        (statusPriority a.status = statusPriority b.status ∧
          lc a.name b.name ≤ 0))
      from inferInstance

/-- The `volcanoes.sort(...)` step: a stable sort by the comparator order. -/
def sortVolcanoes (lc : String → String → Int) (vs : List Volcano) :
    List Volcano :=
  vs.insertionSort (volcanoLE lc)

/-- The successful-fetch body of `fetchVolcanoData`: filter malformed
features, map to `Volcano`, sort. -/
def aggregateVolcanoes (lc : String → String → Int)
    (activeEruptions : EruptionMap) (features : List GVPFeature) :
    List Volcano :=
  sortVolcanoes lc ((features.filter keepFeature).map
    (parseGeoJSONFeature activeEruptions))

/-- `getFallbackVolcanoData`: the hardcoded five-entry fallback list. -/
def getFallbackVolcanoData : List Volcano :=
  [ { id := "300150", name := "Kilauea", country := "United States",
      region := "Hawaiian Islands", latitude := 19.421, longitude := -155.287,
      elevation := 1222, type := "Shield", status := .erupting,
      lastEruption := some "2024", vei := some 1, description := none,
      tectonicSetting := none, rockTypes := none },
    { id := "211040", name := "Stromboli", country := "Italy",
      region := "Aeolian Islands", latitude := 38.789, longitude := 15.213,
      elevation := 924, type := "Stratovolcano", status := .erupting,
      lastEruption := some "2024", vei := some 2, description := none,
      tectonicSetting := none, rockTypes := none },
    { id := "211060", name := "Etna", country := "Italy",
      region := "Sicily", latitude := 37.748, longitude := 14.999,
      elevation := 3357, type := "Stratovolcano", status := .erupting,
      lastEruption := some "2024", vei := some 2, description := none,
      tectonicSetting := none, rockTypes := none },
    { id := "282080", name := "Sakurajima", country := "Japan",
      region := "Kyushu", latitude := 31.585, longitude := 130.657,
      elevation := 1117, type := "Stratovolcano", status := .erupting,
      lastEruption := some "2024", vei := some 2, description := none,
      tectonicSetting := none, rockTypes := none },
    { id := "263300", name := "Semeru", country := "Indonesia",
      region := "Java", latitude := -8.108, longitude := 112.922,
      elevation := 3676, type := "Stratovolcano", status := .erupting,
      lastEruption := some "2024", vei := some 2, description := none,
      tectonicSetting := none, rockTypes := none } ]

/-- `CACHE_DURATION = 6 * 60 * 60 * 1000`. -/
def CACHE_DURATION : Nat := 6 * 60 * 60 * 1000

/-- The module-level `cachedData` variable of the route:
`null` or `{volcanoes, timestamp}`. -/
abbrev CatalogCache := Option (List Volcano × Nat)

/-- The two module-level cache variables together. -/
structure SystemState where
  catalogCache : CatalogCache
  eruptionCache : EruptionCache
deriving DecidableEq, Repr

/-- Result of one `fetchVolcanoData` call: the returned list and the
eruption cache variable afterwards (updated by the inner
`fetchActiveEruptions` call before the catalog fetch is attempted). -/
structure CatFetchResult where
  volcanoes : List Volcano
  newEruCache : EruptionCache
deriving DecidableEq, Repr

/-- `fetchVolcanoData`: fetches eruptions first, then the catalog.
`catOutcome = .error ()` covers a thrown network error, a non-ok status, a
JSON parse failure, and the `!geojson.features || !Array.isArray(...)`
guard; the `catch` block then returns `getFallbackVolcanoData()`.
`fetchActiveEruptions` itself never throws. -/
def fetchVolcanoData (lc : String → String → Int) (eruCache : EruptionCache)
    (now : Nat) (eruOutcome : Except Unit (List GVPEruptionFeature))
    (catOutcome : Except Unit (List GVPFeature)) : CatFetchResult :=
  let er := fetchActiveEruptions eruCache now eruOutcome
  match catOutcome with
  | .ok features => ⟨aggregateVolcanoes lc er.eruptions features, er.newCache⟩
  | .error _ => ⟨getFallbackVolcanoData, er.newCache⟩

/-- The JSON body of the GET route (`lastUpdated` kept as the millisecond
timestamp that the code converts to an ISO string). -/
structure ApiResponse where
  volcanoes : List Volcano
  lastUpdated : Nat
  totalCount : Nat
deriving DecidableEq, Repr

/-- The `GET` handler of the volcano-list route: return the cached list
when its age is below `CACHE_DURATION`, otherwise fetch fresh data and
overwrite `cachedData` with whatever `fetchVolcanoData` returned. -/
def GETvolcanoes (lc : String → String → Int) (st : SystemState) (now : Nat)
    (eruOutcome : Except Unit (List GVPEruptionFeature))
    (catOutcome : Except Unit (List GVPFeature)) :
    ApiResponse × SystemState :=
  let miss :=
    let r := fetchVolcanoData lc st.eruptionCache now eruOutcome catOutcome
    (⟨r.volcanoes, now, r.volcanoes.length⟩,
      { catalogCache := some (r.volcanoes, now), eruptionCache := r.newEruCache })
  match st.catalogCache with
  | some (vs, ts) =>
    if now - ts < CACHE_DURATION then (⟨vs, ts, vs.length⟩, st) else miss
  | none => miss

/-- The `POST` handler of `src/app/api/volcanoes/refresh/route.ts`: calls
`invalidateEruptionCache()` and nothing else touches the caches. -/
def POSTrefresh (st : SystemState) : SystemState :=
  { st with eruptionCache := invalidateEruptionCache st.eruptionCache }

/-- The cache-hit condition of the GET handler,
`cachedData && now - cachedData.timestamp < CACHE_DURATION`, as a
predicate (the handler inlines it). -/
def catFresh (cache : CatalogCache) (now : Nat) : Bool :=
  match cache with
  | some (_, ts) => now - ts < CACHE_DURATION
  | none => false

/-- The id a retained catalog feature contributes:
`String(props.Volcano_Number)`. -/
def featureKey (f : GVPFeature) : String :=
  toString (f.properties.getD defaultProps).Volcano_Number

/-! ## Concrete sample data (used by witnesses and counterexamples) -/

/-- One concrete eruption-feed property record, continuing. -/
def demoEruProps : GVPEruption :=
  { VolcanoNumber := 300150, VolcanoName := "Kilauea",
    ContinuingEruption := "True", StartDate := some "2024-06-03",
    StartDateYear := 2024, ExplosivityIndexMax := some 1 }

/-- A second continuing record for the same volcano (later start, higher VEI). -/
def demoEruProps2 : GVPEruption :=
  { VolcanoNumber := 300150, VolcanoName := "Kilauea",
    ContinuingEruption := "True", StartDate := some "2024-09-15",
    StartDateYear := 2024, ExplosivityIndexMax := some 3 }

/-- A record whose continuing flag is not the string the code tests for. -/
def demoEruPropsClosed : GVPEruption :=
  { VolcanoNumber := 211060, VolcanoName := "Etna",
    ContinuingEruption := "False", StartDate := some "2023-11-12",
    StartDateYear := 2023, ExplosivityIndexMax := some 2 }

/-- The `ActiveEruption` built from `demoEruProps`. -/
def demoActive : ActiveEruption := mkActiveEruption demoEruProps

/-- A one-entry eruption snapshot. -/
def demoMap : EruptionMap := [(("300150"), demoActive)]

/-- An eruption snapshot keyed by an id that is also on the warning
watchlist (Fuego). -/
def demoMapWarning : EruptionMap := [(("342090"), demoActive)]

/-- A populated eruption cache stamped at time 0. -/
def demoEruCache : EruptionCache := some (demoMap, 0)

/-- A well-formed catalog feature. -/
def demoGoodFeature : GVPFeature :=
  { geometry := some { coordinates := some [10, 20] }
    properties := some
      { Volcano_Number := 123456, Volcano_Name := some "Alpha",
        Country := some "Atlantis", Region := some "North",
        Subregion := none, Primary_Volcano_Type := some "Shield",
        Elevation := some 1000, Last_Eruption_Year := some 1999,
        Tectonic_Setting := none, Major_Rock_Type := none } }

/-- A second well-formed catalog feature with a distinct volcano number. -/
def demoGoodFeature2 : GVPFeature :=
  { geometry := some { coordinates := some [30, 40] }
    properties := some
      { Volcano_Number := 654321, Volcano_Name := some "Zeta",
        Country := some "Atlantis", Region := some "South",
        Subregion := none, Primary_Volcano_Type := some "Stratovolcano",
        Elevation := some 2000, Last_Eruption_Year := none,
        Tectonic_Setting := none, Major_Rock_Type := none } }

/-- A catalog feature with no geometry. -/
def demoBadFeature : GVPFeature :=
  { geometry := none, properties := demoGoodFeature.properties }

/-- Lexicographic comparison of char lists by code point (kernel
computable). -/
def charListLe : List Char → List Char → Bool
  | [], _ => true
  | _ :: _, [] => false
  | a :: as, b :: bs =>
    if a.toNat < b.toNat then true
    else if b.toNat < a.toNat then false
    else charListLe as bs

/-- A concrete total comparator standing in for
`String.prototype.localeCompare` in witnesses: code-unit (lexicographic)
order. -/
def lcStd (a b : String) : Int :=
  if charListLe a.data b.data then
    (if charListLe b.data a.data then 0 else -1)
  else 1

/-- A system state whose catalog cache holds a stale empty snapshot
(stamped at time 0) and whose eruption cache is empty. -/
def demoStaleState : SystemState :=
  { catalogCache := some ([], 0), eruptionCache := none }

/-! ## Theorems -/

/-- C10: every `Volcano` produced by parsing a live catalog feature has no
`vei` value, while every entry of the hardcoded fallback list carries one;
the eruption feed's explosivity index is never merged into catalog
records. -/
theorem C10_parsed_vei_absent :
    (∀ (e : EruptionMap) (f : GVPFeature), (parseGeoJSONFeature e f).vei = none) ∧
    getFallbackVolcanoData.all (fun v => v.vei.isSome) = true := by
  exact ⟨fun e f => rfl, rfl⟩

/-- C9: the refresh handler clears the eruption cache unconditionally (no
timestamp check) and leaves the catalog cache unchanged, and the next
`fetchActiveEruptions` call after it issues a network fetch — whatever the
cleared entry held, even one still inside its 30-minute TTL. -/
theorem C9_invalidate_unconditional (st : SystemState) (now : Nat)
    (o : Except Unit (List GVPEruptionFeature)) :
    (POSTrefresh st).eruptionCache = none ∧
    (POSTrefresh st).catalogCache = st.catalogCache ∧
    (fetchActiveEruptions (POSTrefresh st).eruptionCache now o).fetched = true := by
  refine ⟨rfl, rfl, ?_⟩
  cases o <;> rfl

/-- C3: `determineStatus` follows the fixed priority with first match
winning: eruption snapshot membership (even for watchlisted ids), then the
warning, watch and advisory watchlists, else normal. -/
theorem C3_status_priority (e : EruptionMap) (volcanoId : String) :
    (hasKey e volcanoId = true → determineStatus e volcanoId = .erupting) ∧
    (hasKey e volcanoId = false → WARNING_VOLCANO_IDS.contains volcanoId = true →
      determineStatus e volcanoId = .warning) ∧
    (hasKey e volcanoId = false → WARNING_VOLCANO_IDS.contains volcanoId = false →
      WATCH_VOLCANO_IDS.contains volcanoId = true →
      determineStatus e volcanoId = .watch) ∧
    (hasKey e volcanoId = false → WARNING_VOLCANO_IDS.contains volcanoId = false →
      WATCH_VOLCANO_IDS.contains volcanoId = false →
      ADVISORY_VOLCANO_IDS.contains volcanoId = true →
      determineStatus e volcanoId = .advisory) ∧
    (hasKey e volcanoId = false → WARNING_VOLCANO_IDS.contains volcanoId = false →
      WATCH_VOLCANO_IDS.contains volcanoId = false →
      ADVISORY_VOLCANO_IDS.contains volcanoId = false →
      determineStatus e volcanoId = .normal) := by
  refine ⟨?_, ?_, ?_, ?_, ?_⟩ <;> intros <;> simp_all [determineStatus]

/-- Witness for C3 at concrete ids: Fuego (erupting even though
watchlisted), Merapi (warning), Cotopaxi (watch), Raung (advisory), and an
unknown id (normal). -/
theorem C3_status_priority_witness :
    determineStatus demoMapWarning ("342090") = .erupting ∧
    determineStatus demoMap ("263250") = .warning ∧
    determineStatus demoMap ("352010") = .watch ∧
    determineStatus demoMap ("264140") = .advisory ∧
    determineStatus demoMap ("999999") = .normal :=
  ⟨(C3_status_priority demoMapWarning ("342090")).1 (by decide),
   (C3_status_priority demoMap ("263250")).2.1 (by decide) (by decide),
   (C3_status_priority demoMap ("352010")).2.2.1 (by decide) (by decide)
     (by decide),
   (C3_status_priority demoMap ("264140")).2.2.2.1 (by decide) (by decide)
     (by decide) (by decide),
   (C3_status_priority demoMap ("999999")).2.2.2.2 (by decide) (by decide)
     (by decide) (by decide)⟩

/-- C5: `fetchActiveEruptions` never raises (it is total here): on a fetch
failure it returns the previous cached snapshot when one exists — whatever
its age — and an empty map otherwise, leaving the cache variable
untouched; the cache entry is replaced only by a successful fetch. -/
theorem C5_eruptions_fail_open (cache : EruptionCache) (now : Nat) :
    ((fetchActiveEruptions cache now (.error ())).eruptions
        = (cache.map (fun c => c.1)).getD [] ∧
      (fetchActiveEruptions cache now (.error ())).newCache = cache) ∧
    (∀ o : Except Unit (List GVPEruptionFeature),
      (fetchActiveEruptions cache now o).newCache ≠ cache →
        ∃ fs, o = .ok fs ∧
          (fetchActiveEruptions cache now o).newCache
            = some (buildEruptions fs, now)) := by
  constructor
  · by_cases hf : eruFresh cache now = true
    · constructor
      · unfold fetchActiveEruptions; rw [if_pos hf]
      · unfold fetchActiveEruptions; rw [if_pos hf]
    · rcases cache with _ | ⟨e, ts⟩
      · constructor
        · unfold fetchActiveEruptions; rw [if_neg hf]; rfl
        · unfold fetchActiveEruptions; rw [if_neg hf]
      · constructor
        · unfold fetchActiveEruptions; rw [if_neg hf]; rfl
        · unfold fetchActiveEruptions; rw [if_neg hf]
  · intro o hne
    by_cases hf : eruFresh cache now = true
    · exfalso
      apply hne
      unfold fetchActiveEruptions
      rw [if_pos hf]
    · cases o with
      | ok fs =>
        refine ⟨fs, rfl, ?_⟩
        unfold fetchActiveEruptions
        rw [if_neg hf]
      | error u =>
        exfalso
        apply hne
        unfold fetchActiveEruptions
        rw [if_neg hf]
        rcases cache with _ | ⟨e, ts⟩ <;> rfl

/-- Witness for C5: with a half-hour-stale one-entry cache, a failed fetch
returns the stale snapshot and keeps the cache; a successful fetch of an
empty feed replaces the cache entry. -/
theorem C5_eruptions_fail_open_witness :
    ((fetchActiveEruptions demoEruCache 10000000 (.error ())).eruptions = demoMap ∧
      (fetchActiveEruptions demoEruCache 10000000 (.error ())).newCache
        = demoEruCache) ∧
    (∃ fs, (.ok [] : Except Unit (List GVPEruptionFeature)) = .ok fs ∧
      (fetchActiveEruptions demoEruCache 10000000 (.ok [])).newCache
        = some (buildEruptions fs, 10000000)) :=
  ⟨(C5_eruptions_fail_open demoEruCache 10000000).1,
   (C5_eruptions_fail_open demoEruCache 10000000).2 (.ok []) (by decide)⟩

/-- C1: when the catalog cache is absent or expired and the catalog fetch
fails, the GET handler returns exactly the five-entry hardcoded fallback
list — each entry `erupting` — and never the stale cached catalog. -/
theorem C1_fallback_on_catalog_failure (lc : String → String → Int)
    (st : SystemState) (now : Nat)
    (eo : Except Unit (List GVPEruptionFeature))
    (hmiss : catFresh st.catalogCache now = false) :
    (GETvolcanoes lc st now eo (.error ())).1.volcanoes
      = getFallbackVolcanoData ∧
    getFallbackVolcanoData.length = 5 ∧
    getFallbackVolcanoData.all (fun v => v.status == .erupting) = true ∧
    (∀ vs ts, st.catalogCache = some (vs, ts) →
      vs ≠ getFallbackVolcanoData →
      (GETvolcanoes lc st now eo (.error ())).1.volcanoes ≠ vs) := by
  have hmain : (GETvolcanoes lc st now eo (.error ())).1.volcanoes
      = getFallbackVolcanoData := by
    unfold GETvolcanoes
    rcases hst : st.catalogCache with _ | ⟨vs, ts⟩
    · rfl
    · have hlt : ¬ (now - ts < CACHE_DURATION) := by
        simpa [catFresh, hst] using hmiss
      simp only [if_neg hlt]
      rfl
  refine ⟨hmain, rfl, rfl, ?_⟩
  intro vs ts hcc hne hEq
  exact hne (hEq.symm.trans hmain)

/-- Witness for C1: a stale empty catalog cache plus failing fetches yield
the fallback list, not the cached (empty) snapshot. -/
theorem C1_fallback_on_catalog_failure_witness :
    (GETvolcanoes lcStd demoStaleState 1000000000 (.error ()) (.error ())).1.volcanoes
      = getFallbackVolcanoData ∧
    (GETvolcanoes lcStd demoStaleState 1000000000 (.error ()) (.error ())).1.volcanoes
      ≠ ([] : List Volcano) :=
  ⟨(C1_fallback_on_catalog_failure lcStd demoStaleState 1000000000 (.error ())
      (by decide)).1,
   (C1_fallback_on_catalog_failure lcStd demoStaleState 1000000000 (.error ())
      (by decide)).2.2.2 [] 0 rfl (by decide)⟩

/-- C2 as stated is false: a failed catalog fetch does replace the cached
catalog entry, because `fetchVolcanoData` swallows the failure and returns
the fallback list, which the GET handler then writes into `cachedData`
with a fresh timestamp. -/
theorem C2_counterexample :
    (GETvolcanoes lcStd demoStaleState 1000000000 (.error ()) (.error ())).2.catalogCache
      ≠ demoStaleState.catalogCache := by
  decide

/-- C2 amended: on a cache-miss call in which the catalog fetch fails, the
catalog cache is overwritten with the fallback list and the current
timestamp — the previously cached entry is discarded, not preserved. -/
theorem C2_cache_overwritten_on_failure (lc : String → String → Int)
    (st : SystemState) (now : Nat)
    (eo : Except Unit (List GVPEruptionFeature))
    (hmiss : catFresh st.catalogCache now = false) :
    (GETvolcanoes lc st now eo (.error ())).2.catalogCache
      = some (getFallbackVolcanoData, now) := by
  unfold GETvolcanoes
  rcases hst : st.catalogCache with _ | ⟨vs, ts⟩
  · rfl
  · have hlt : ¬ (now - ts < CACHE_DURATION) := by
      simpa [catFresh, hst] using hmiss
    simp only [if_neg hlt]
    rfl

/-- Witness for the amended C2 at the concrete stale state. -/
theorem C2_cache_overwritten_on_failure_witness :
    (GETvolcanoes lcStd demoStaleState 1000000000 (.error ()) (.error ())).2.catalogCache
      = some (getFallbackVolcanoData, 1000000000) :=
  C2_cache_overwritten_on_failure lcStd demoStaleState 1000000000 (.error ())
    (by decide)

/-- C8: catalog features missing geometry, properties, coordinates or a
name are excluded without failing the whole aggregation: one bad plus one
good feature yield a one-element list, and in general the output length is
the number of retained features. -/
theorem C8_malformed_features_excluded (lc : String → String → Int)
    (e : EruptionMap) (fbad fgood : GVPFeature)
    (h1 : fbad.geometry = none) (h2 : keepFeature fgood = true) :
    (aggregateVolcanoes lc e [fbad, fgood]).length = 1 ∧
    (∀ gs : List GVPFeature,
      (aggregateVolcanoes lc e gs).length = (gs.filter keepFeature).length) ∧
    (∀ f : GVPFeature,
      (f.geometry = none ∨ f.properties = none ∨
        (∃ g, f.geometry = some g ∧ g.coordinates = none) ∨
        (∃ p, f.properties = some p ∧ p.Volcano_Name = none)) →
      keepFeature f = false) := by
  have hlen : ∀ gs : List GVPFeature,
      (aggregateVolcanoes lc e gs).length = (gs.filter keepFeature).length := by
    intro gs
    unfold aggregateVolcanoes sortVolcanoes
    rw [List.length_insertionSort, List.length_map]
  have hbad : keepFeature fbad = false := by
    unfold keepFeature
    rw [h1]
  refine ⟨?_, hlen, ?_⟩
  · rw [hlen]
    simp [List.filter, hbad, h2]
  · intro f hf
    rcases hf with h | h | ⟨g, hg, hgc⟩ | ⟨p, hp, hn⟩
    · unfold keepFeature; rw [h]
    · unfold keepFeature; rw [h]; cases f.geometry <;> rfl
    · unfold keepFeature; rw [hg]
      cases hfp : f.properties
      · rfl
      · simp [hgc]
    · unfold keepFeature; rw [hp]
      cases hfg : f.geometry
      · rfl
      · simp [hn, strTruthy]

/-- Witness for C8: a geometry-less feature next to a well-formed one
yields exactly one volcano. -/
theorem C8_malformed_features_excluded_witness :
    (aggregateVolcanoes lcStd [] [demoBadFeature, demoGoodFeature]).length = 1 :=
  (C8_malformed_features_excluded lcStd [] demoBadFeature demoGoodFeature rfl
    (by decide)).1

/-- How `buildAux` treats the records of one volcano id: the accumulated
entries for that id, extended by the first matching continuing record of
the remaining feed when the id is not yet present. -/
theorem buildAux_filter (id : String) (fs : List GVPEruptionFeature) :
    ∀ acc : EruptionMap,
      (buildAux acc fs).filter (fun p => p.1 == id) =
        acc.filter (fun p => p.1 == id) ++
          (if hasKey acc id then []
           else
             match fs.find? (fun f =>
                 f.properties.ContinuingEruption == "True" &&
                   (toString f.properties.VolcanoNumber == id)) with
             | some f => [(id, mkActiveEruption f.properties)]
             | none => []) := by
  induction fs with
  | nil =>
    intro acc
    simp [buildAux, List.find?]
  | cons f rest ih =>
    intro acc
    by_cases hc : (f.properties.ContinuingEruption == "True") = true
    · by_cases hk : hasKey acc (toString f.properties.VolcanoNumber) = true
      · rw [show buildAux acc (f :: rest) = buildAux acc rest by
          simp [buildAux, hc, hk]]
        rw [ih acc]
        by_cases hki : (toString f.properties.VolcanoNumber == id) = true
        · have hid : hasKey acc id = true := by
            rw [← eq_of_beq hki]; exact hk
          simp [hid]
        · simp [List.find?, hc, hki]
      · by_cases hki : (toString f.properties.VolcanoNumber == id) = true
        · have hkeq : toString f.properties.VolcanoNumber = id := eq_of_beq hki
          have hid : hasKey acc id = false := by
            rw [← hkeq]; exact Bool.eq_false_iff.mpr hk
          rw [show buildAux acc (f :: rest) =
              buildAux (acc ++ [(toString f.properties.VolcanoNumber,
                mkActiveEruption f.properties)]) rest by
            simp [buildAux, hc, hk]]
          rw [ih]
          simp only [hkeq]
          have hid2 : hasKey (acc ++ [(id, mkActiveEruption f.properties)])
              id = true := by
            simp [hasKey]
          simp [hid2, hid, List.filter_append, hki, List.find?, hc, hkeq]
        · rw [show buildAux acc (f :: rest) =
              buildAux (acc ++ [(toString f.properties.VolcanoNumber,
                mkActiveEruption f.properties)]) rest by
            simp [buildAux, hc, hk]]
          rw [ih]
          have hid2 : hasKey (acc ++ [(toString f.properties.VolcanoNumber,
              mkActiveEruption f.properties)]) id = hasKey acc id := by
            simp [hasKey, hki]
          simp [hid2, List.filter_append, hki, List.find?, hc]
    · rw [show buildAux acc (f :: rest) = buildAux acc rest by
        simp [buildAux, hc]]
      rw [ih acc]
      simp [List.find?, hc]

/-- C6: for any volcano id, the snapshot built from the feed keeps exactly
the first continuing record with that id (first-wins, feed delivery
order) and nothing else; ids whose records are all non-continuing get no
entry. -/
theorem C6_duplicate_first_wins (fs : List GVPEruptionFeature) (id : String) :
    (buildEruptions fs).filter (fun p => p.1 == id) =
      (match fs.find? (fun f =>
          f.properties.ContinuingEruption == "True" &&
            (toString f.properties.VolcanoNumber == id)) with
       | some f => [(id, mkActiveEruption f.properties)]
       | none => []) := by
  have h := buildAux_filter id fs []
  simpa [buildEruptions, hasKey] using h

/-- C7 as stated is false: the catalog aggregation never deduplicates, so
a feature collection containing the same volcano number twice yields two
list entries with the same id. -/
theorem C7_counterexample :
    ¬ (((aggregateVolcanoes lcStd [] [demoGoodFeature, demoGoodFeature]).map
        (fun v => v.id)).Nodup) := by
  have hmap : (aggregateVolcanoes lcStd [] [demoGoodFeature, demoGoodFeature]).map
      (fun v => v.id) = [("123456"), ("123456")] := by decide
  rw [hmap]
  simp

/-- C7 amended: the snapshot has one record per external identifier
whenever the retained input features carry pairwise distinct volcano
numbers (as the upstream catalog does); the pipeline itself merely
preserves whatever multiplicity the input has. -/
theorem C7_unique_ids_when_distinct (lc : String → String → Int)
    (e : EruptionMap) (features : List GVPFeature)
    (h : ((features.filter keepFeature).map featureKey).Nodup) :
    ((aggregateVolcanoes lc e features).map (fun v => v.id)).Nodup := by
  have hperm : List.Perm (aggregateVolcanoes lc e features)
      ((features.filter keepFeature).map (parseGeoJSONFeature e)) :=
    List.perm_insertionSort _ _
  have hmap := hperm.map (fun v => v.id)
  rw [hmap.nodup_iff, List.map_map]
  have hcomp : ((fun v => v.id) ∘ parseGeoJSONFeature e) = featureKey := by
    funext f; rfl
  rw [hcomp]
  exact h

/-- Witness for the amended C7: two features with distinct volcano numbers
yield distinct ids. -/
theorem C7_unique_ids_when_distinct_witness :
    ((aggregateVolcanoes lcStd [] [demoGoodFeature, demoGoodFeature2]).map
      (fun v => v.id)).Nodup :=
  C7_unique_ids_when_distinct lcStd [] [demoGoodFeature, demoGoodFeature2]
    (by
      have h : ([demoGoodFeature, demoGoodFeature2].filter keepFeature).map featureKey
          = [("123456"), ("654321")] := by decide
      rw [h]
      simp)

/-- `charListLe` is total. -/
theorem charListLe_total : ∀ as bs : List Char,
    charListLe as bs = true ∨ charListLe bs as = true := by
  intro as
  induction as with
  | nil => intro bs; left; rfl
  | cons a as ih =>
    intro bs
    cases bs with
    | nil => right; rfl
    | cons b bs =>
      by_cases h1 : a.toNat < b.toNat
      · left; simp [charListLe, h1]
      · by_cases h2 : b.toNat < a.toNat
        · right; simp [charListLe, h2]
        · rcases ih bs with h | h
          · left; simp [charListLe, h1, h2, h]
          · right; simp [charListLe, h1, h2, h]

/-- `charListLe` is transitive. -/
theorem charListLe_trans : ∀ as bs cs : List Char,
    charListLe as bs = true → charListLe bs cs = true →
    charListLe as cs = true := by
  intro as
  induction as with
  | nil => intro bs cs h1 h2; rfl
  | cons a as ih =>
    intro bs cs h1 h2
    cases bs with
    | nil => simp [charListLe] at h1
    | cons b bs =>
      cases cs with
      | nil => simp [charListLe] at h2
      | cons c cs =>
        simp only [charListLe] at h1 h2 ⊢
        by_cases hab : a.toNat < b.toNat
        · by_cases hbc : b.toNat < c.toNat
          · simp [Nat.lt_trans hab hbc]
          · by_cases hcb : c.toNat < b.toNat
            · simp [hbc, hcb] at h2
            · have : b.toNat = c.toNat := by omega
              simp [this ▸ hab]
        · by_cases hba : b.toNat < a.toNat
          · simp [hab, hba] at h1
          · have hab2 : a.toNat = b.toNat := by omega
            by_cases hbc : b.toNat < c.toNat
            · simp [hab2 ▸ hbc]
            · by_cases hcb : c.toNat < b.toNat
              · simp [hbc, hcb] at h2
              · have hbc2 : b.toNat = c.toNat := by omega
                simp [hab, hba] at h1
                simp [hbc, hcb] at h2
                have hac : ¬ a.toNat < c.toNat := by omega
                have hca : ¬ c.toNat < a.toNat := by omega
                simp [hac, hca]
                exact ih bs cs h1 h2

/-- The comparator order realised by `lcStd` is the code-point string
order. -/
theorem lcStd_nonpos (a b : String) :
    lcStd a b ≤ 0 ↔ charListLe a.data b.data = true := by
  unfold lcStd
  by_cases h : charListLe a.data b.data = true
  · rw [if_pos h]
    refine ⟨fun _ => h, fun _ => ?_⟩
    by_cases h2 : charListLe b.data a.data = true
    · rw [if_pos h2]
    · rw [if_neg h2]; decide
  · rw [if_neg h]
    exact ⟨fun h1 => absurd h1 (by decide), fun hab => absurd hab h⟩

/-- C4: a successful catalog aggregation is sorted ascending by the pair
(status priority, name) — erupting(0) < warning(1) < watch(2) <
advisory(3) < normal(4), names under the locale comparator `lc` — for any
comparator whose nonpositive cone is total and transitive; in particular
no normal-status volcano ever precedes an erupting one. -/
theorem C4_sorted_by_status_then_name (lc : String → String → Int)
    (ht : ∀ a b, lc a b ≤ 0 ∨ lc b a ≤ 0)
    (htr : ∀ a b c, lc a b ≤ 0 → lc b c ≤ 0 → lc a c ≤ 0)
    (e : EruptionMap) (features : List GVPFeature) :
    List.Sorted (volcanoLE lc) (aggregateVolcanoes lc e features) ∧
    (aggregateVolcanoes lc e features).Pairwise
      (fun a b => ¬(a.status = .normal ∧ b.status = .erupting)) := by
  haveI htot : IsTotal Volcano (volcanoLE lc) := ⟨by
    intro a b
    rcases Nat.lt_trichotomy (statusPriority a.status)
        (statusPriority b.status) with h | h | h
    · exact Or.inl (Or.inl h)
    · rcases ht a.name b.name with hn | hn
      · exact Or.inl (Or.inr ⟨h, hn⟩)
      · exact Or.inr (Or.inr ⟨h.symm, hn⟩)
    · exact Or.inr (Or.inl h)⟩
  haveI htrans : IsTrans Volcano (volcanoLE lc) := ⟨by
    intro a b c hab hbc
    rcases hab with h1 | ⟨h1, hn1⟩
    · rcases hbc with h2 | ⟨h2, hn2⟩
      · exact Or.inl (h1.trans h2)
      · exact Or.inl (h2 ▸ h1)
    · rcases hbc with h2 | ⟨h2, hn2⟩
      · exact Or.inl (h1 ▸ h2)
      · exact Or.inr ⟨h1.trans h2, htr _ _ _ hn1 hn2⟩⟩
  have hs : List.Sorted (volcanoLE lc) (aggregateVolcanoes lc e features) :=
    List.sorted_insertionSort (volcanoLE lc) _
  refine ⟨hs, List.Pairwise.imp ?_ hs⟩
  rintro a b hab ⟨hna, hnb⟩
  rcases hab with h | ⟨h, _⟩
  · rw [hna, hnb] at h
    exact absurd h (by decide)
  · rw [hna, hnb] at h
    exact absurd h (by decide)

/-- Witness for C4: the concrete code-unit comparator `lcStd` satisfies
the totality and transitivity hypotheses, instantiated on two sample
features. -/
theorem C4_sorted_by_status_then_name_witness :
    List.Sorted (volcanoLE lcStd)
      (aggregateVolcanoes lcStd demoMap [demoGoodFeature, demoGoodFeature2]) ∧
    (aggregateVolcanoes lcStd demoMap [demoGoodFeature, demoGoodFeature2]).Pairwise
      (fun a b => ¬(a.status = .normal ∧ b.status = .erupting)) :=
  C4_sorted_by_status_then_name lcStd
    (fun a b => (charListLe_total a.data b.data).imp
      (lcStd_nonpos a b).mpr (lcStd_nonpos b a).mpr)
    (fun a b c h1 h2 => (lcStd_nonpos a c).mpr
      (charListLe_trans a.data b.data c.data
        ((lcStd_nonpos a b).mp h1) ((lcStd_nonpos b c).mp h2)))
    demoMap [demoGoodFeature, demoGoodFeature2]

end Volcanic
